import Mathlib

/-!
Verification of the CrazyDesk tracker (directory `python-tracker`).

This file is a shallow embedding of the tracker's core logic:

* `modules/capture.py`   — single-flight capture executor, auto-capture
  scheduler, remote command poller;
* `crazydesk_tracker.py` — session globals and the HTTP handler callbacks
  (`handle_checkin`, `handle_checkout`, `handle_capture`, `handle_status`);
* `modules/firebase_api.py` — `check_in`, `check_out`, `emergency_check_out`;
* `modules/activity.py`  — activity counters and `flush_activity`;
* `modules/local_server.py` — the POST dispatch of the local API server.

Conventions of the embedding:

* timestamps are epoch milliseconds (`ℤ`); ISO-string parsing at the
  Firestore boundary is a pure conversion and is not re-modelled;
* Python float arithmetic on these quantities is modelled exactly over `ℚ`;
* `random.random()` draws are explicit parameters `r` with `0 ≤ r < 1`;
* network collaborators (Firestore queries and writes, image uploads) are
  capability inputs: their outcomes (`Option`-valued data, success booleans)
  are arguments of the embedded functions;
* threads are modelled by explicit state passing; for the one claim about
  the lock-held window the executor is split into an acquire step and a
  finish step of a small transition system (`capStep`).
-/

namespace CrazyDesk

/-- Python builtin `round`: nearest integer, ties to even (banker rounding). -/
def pyRound (q : ℚ) : ℤ :=
  let f := ⌊q⌋
  let r := q - f
  if r < 1/2 then f
  else if 1/2 < r then f + 1
  else if f % 2 = 0 then f else f + 1

/-- Python `int(a / b)` on exact integer inputs: quotient truncated toward zero. -/
def pyTruncDiv (a b : ℤ) : ℤ := Int.tdiv a b

/-! ## Capture executor (`modules/capture.py`) -/

/-- Result dict of `perform_capture`.  The Python dict omits the `skipped` key on
non-skipped runs; callers read it with `.get("skipped")`, so an absent key is
modelled as `skipped = false`. -/
structure CapResult where
  screenshotUrl : Option String
  cameraUrl : Option String
  flagged : Bool
  skipped : Bool
deriving DecidableEq, Repr

/-- Collaborator inputs of a single capture run: the in-memory session
(`get_session`), whether the countdown cancellation event gets set during the
60-second countdown, the combined acquire-and-upload outcome per artifact
(`capture_screen`/`capture_camera` followed by `upload_image`, `none` when either
stage fails), and whether the `save_tracker_log` write succeeds. -/
structure CapEnv where
  uid : String
  displayName : String
  cancelled : Bool
  screenshotUrl : Option String
  cameraUrl : Option String
  logSaveOk : Bool
deriving DecidableEq, Repr

/-- A document of the `tracker_logs` collection, written by `save_tracker_log`
for a non-skipped capture run. -/
structure CaptureRecord where
  userId : String
  userDisplayName : String
  screenshotUrl : String
  cameraImageUrl : String
  logType : String
  flagged : Bool
  flagReason : Option String
  source : String
deriving DecidableEq, Repr

/-- The dict returned by the two skip paths of `perform_capture`
(busy guard, cancelled countdown). -/
def skippedCapResult : CapResult :=
  { screenshotUrl := none, cameraUrl := none, flagged := false, skipped := true }

/-- The dict returned by the missing-UID early return of `perform_capture`
(line 250): flagged, and no `skipped` key. -/
def noUidCapResult : CapResult :=
  { screenshotUrl := none, cameraUrl := none, flagged := true, skipped := false }

/-- The dict returned at the end of a non-skipped run (line 293): the two
upload outcomes, flagged iff both artifacts are absent, no `skipped` key. -/
def doneCapResultOf (env : CapEnv) : CapResult :=
  { screenshotUrl := env.screenshotUrl, cameraUrl := env.cameraUrl,
    flagged := env.screenshotUrl.isNone && env.cameraUrl.isNone,
    skipped := false }

/-- The `tracker_logs` document built at the end of a non-skipped run
(capture.py lines 275-288). -/
def captureRecordOf (captureType : String) (env : CapEnv) : CaptureRecord :=
  let flagged := env.screenshotUrl.isNone && env.cameraUrl.isNone
  { userId := env.uid
    userDisplayName := env.displayName
    screenshotUrl := env.screenshotUrl.getD ""
    cameraImageUrl := env.cameraUrl.getD ""
    logType := if flagged then "flagged" else captureType
    flagged := flagged
    flagReason := if flagged then some "Both camera and screen capture failed" else none
    source := "desktop" }

/-- Body of `perform_capture` once the busy flag is held (capture.py lines
243-293): missing-UID early return (note: no `skipped` key), cancellable
countdown, acquisition and upload of both artifacts, tracker-log write (write
failures are swallowed, so a failed write loses the record but not the run). -/
def capture_run_body (captureType : String) (env : CapEnv)
    (records : List CaptureRecord) : CapResult × List CaptureRecord :=
  if env.uid = "" then (noUidCapResult, records)
  else if env.cancelled then (skippedCapResult, records)
  else
    (doneCapResultOf env,
     if env.logSaveOk then records ++ [captureRecordOf captureType env] else records)

/-- State shared by every capture trigger source: the guarded busy flag
`_capture_in_progress` and the tracker-log collection. -/
structure CapState where
  busy : Bool
  records : List CaptureRecord
deriving DecidableEq, Repr

/-- `perform_capture` (capture.py lines 225-297), run-to-completion view: the
locked test-and-set of `_capture_in_progress`, the body, and the release in the
`finally` block. -/
def perform_capture (captureType : String) (env : CapEnv) (s : CapState) :
    CapResult × CapState :=
  if s.busy then (skippedCapResult, s)
  else
    let (r, recs) := capture_run_body captureType env s.records
    (r, { busy := false, records := recs })

/-- Phase of a capture run's body: the cancellable 60-second countdown
(`_run_countdown` checks `_countdown_cancel` at every tick), or the
non-cancelable acquisition/upload/log tail past the countdown. -/
inductive RunPhase where
  | countdown
  | acquiring
deriving DecidableEq, Repr

/-- Interleaved executor state: the `_capture_in_progress` flag, the
`_countdown_cancel` event, every thread currently inside the body of
`perform_capture` (trigger kind, collaborator inputs and phase), and the
tracker-log collection.  `runs` is a list because nothing in the code ties the
flag to the run that set it: `stop_all_tracking` clears the flag while runs may
still be executing, after which a second run can enter. -/
structure CapSysState where
  busy : Bool
  cancelSignal : Bool
  runs : List (String × CapEnv × RunPhase)
  records : List CaptureRecord
deriving DecidableEq, Repr

/-- Events of the interleaved view of the capture subsystem:

* `trigger` — a `perform_capture` call from any source (auto timer, remote
  command, control surface) runs the guarded test-and-set of lines 237-241.
  While the flag is held it returns the `skipped=true` dict immediately.  A
  missing session UID releases the flag in the `finally` block and returns a
  flagged result without a countdown.  Otherwise the run enters its countdown,
  whose first statement clears the cancellation event (line 186).
* `countdownDone i` — run `i` reaches a countdown tick with the cancellation
  event set (abort: `skipped=true`, `finally` releases the flag, no record) or
  completes the countdown (moves to the non-cancelable acquisition phase).
* `finishRun i` — run `i`, past its countdown, finishes acquisition, uploads,
  writes the tracker log (if the write succeeds) and releases the flag.
* `stop` — `stop_all_tracking` (capture.py lines 423-429): sets the
  countdown-cancel event, stops the timer and poller, and unconditionally
  clears `_capture_in_progress` — even while a run is in its non-cancelable
  acquisition phase. -/
inductive CapEvent where
  | trigger (captureType : String) (env : CapEnv)
  | countdownDone (i : ℕ)
  | finishRun (i : ℕ)
  | stop
deriving DecidableEq, Repr

/-- One step of the interleaved capture subsystem. -/
def capStep (s : CapSysState) : CapEvent → CapSysState × Option CapResult
  | .trigger captureType env =>
    if s.busy then (s, some skippedCapResult)
    else if env.uid = "" then (s, some noUidCapResult)
    else
      ({ s with
          busy := true
          cancelSignal := false
          runs := s.runs ++ [(captureType, env, RunPhase.countdown)] },
       none)
  | .countdownDone i =>
    match s.runs[i]? with
    | some (captureType, env, RunPhase.countdown) =>
      if s.cancelSignal then
        ({ s with busy := false, runs := s.runs.eraseIdx i },
         some skippedCapResult)
      else
        ({ s with runs := s.runs.set i (captureType, env, RunPhase.acquiring) },
         none)
    | _ => (s, none)
  | .finishRun i =>
    match s.runs[i]? with
    | some (captureType, env, RunPhase.acquiring) =>
      ({ s with
          busy := false
          runs := s.runs.eraseIdx i
          records := if env.logSaveOk then
            s.records ++ [captureRecordOf captureType env] else s.records },
       some (doneCapResultOf env))
    | _ => (s, none)
  | .stop =>
    ({ s with cancelSignal := true, busy := false }, none)

/-- Runs a sequence of events from a state, collecting each step's immediate
result (`none` while a run is still executing in the background). -/
def capRunEvents (s : CapSysState) :
    List CapEvent → CapSysState × List (Option CapResult)
  | [] => (s, [])
  | e :: rest =>
    let p := capStep s e
    let q := capRunEvents p.1 rest
    (q.1, p.2 :: q.2)

/-- The capture subsystem's initial state: idle, no signal, no runs, no logs. -/
def capInit : CapSysState :=
  { busy := false, cancelSignal := false, runs := [], records := [] }

/-! ## Auto-capture scheduler and remote command poller (`modules/capture.py`) -/

def CAPTURE_MIN_MIN : ℚ := 10

def CAPTURE_MAX_MIN : ℚ := 30

def POST_CAPTURE_COOLDOWN_SEC : ℚ := 120

/-- `_random_delay_sec` (capture.py lines 45-46), with the `random.random()`
draw `r` made explicit. -/
def random_delay_sec (r : ℚ) : ℚ :=
  (CAPTURE_MIN_MIN + r * (CAPTURE_MAX_MIN - CAPTURE_MIN_MIN)) * 60

/-- First-attempt delay drawn in `start_auto_capture` (capture.py line 353). -/
def first_capture_delay_sec (r : ℚ) : ℚ := (3 + r * 2) * 60

/-- Delay used by `_reschedule_after_capture` (capture.py line 326):
fixed cooldown plus a fresh jitter draw. -/
def reschedule_after_capture_delay (r : ℚ) : ℚ :=
  POST_CAPTURE_COOLDOWN_SEC + random_delay_sec r

/-- `_do_auto_capture` (capture.py lines 330-343): the timer callback of the
automatic-capture scheduler.  Returns the capture state afterwards, the result
of the capture it executed (if any), and the delay it hands to the next timer
(`none` when tracking was stopped and nothing is scheduled). -/
def do_auto_capture (autoRunning : Bool) (env : CapEnv) (r : ℚ) (cs : CapState) :
    CapState × Option CapResult × Option ℚ :=
  if autoRunning = false then (cs, none, none)
  else if cs.busy then (cs, none, some POST_CAPTURE_COOLDOWN_SEC)
  else
    let p := perform_capture "auto" env cs
    (p.2, some p.1, some (reschedule_after_capture_delay r))

/-- A pending document of the `capture_commands` collection; `id` is the
Firestore document id (`_id`), with `""` modelling a falsy/absent id. -/
structure RemoteCommand where
  id : String
deriving DecidableEq, Repr

/-- One iteration of `_remote_poll_loop` (capture.py lines 375-398).  `commands`
is the pending batch returned by `check_capture_commands` (query limit 5); the
loop slices `commands[:1]`.  Returns the capture state afterwards, the result of
the executed capture (if any), the ids passed to `complete_capture_command`, and
the delay `_reschedule_after_capture` hands to the auto timer (if it ran). -/
def remote_poll_tick (hasSession : Bool) (commands : List RemoteCommand)
    (env : CapEnv) (autoRunning : Bool) (r : ℚ) (cs : CapState) :
    CapState × Option CapResult × List String × Option ℚ :=
  if hasSession = false then (cs, none, [], none)
  else
    match commands.take 1 with
    | [] => (cs, none, [], none)
    | cmd :: _ =>
      if cs.busy then (cs, none, [], none)
      else
        let p := perform_capture "manual" env cs
        let completed := if cmd.id ≠ "" then [cmd.id] else []
        let resched := if autoRunning then some (reschedule_after_capture_delay r) else none
        (p.2, some p.1, completed, resched)

/-! ## Tracker session state and HTTP handlers (`crazydesk_tracker.py`) -/

/-- The module-level session globals of `crazydesk_tracker.py` (lines 70-75). -/
structure TrackerState where
  sessionId : Option String
  checkInTimeMs : Option ℤ
  isOnBreak : Bool
  breakStartMs : Option ℤ
  totalBreakSec : ℤ
  captureCount : ℕ
deriving DecidableEq, Repr

/-- Result dict of the capture endpoint handler. -/
structure ApiCaptureResult where
  ok : Bool
  flagged : Bool
  screenshotUrl : Option String
  cameraUrl : Option String
deriving DecidableEq, Repr

/-- `handle_capture` (crazydesk_tracker.py lines 282-297): a control-surface
capture request.  It runs `perform_capture("remote")` and increments the global
`capture_count` after every non-raising run, skipped or not. -/
def handle_capture (env : CapEnv) (captureCount : ℕ) (cs : CapState) :
    ApiCaptureResult × ℕ × CapState :=
  let p := perform_capture "remote" env cs
  ({ ok := true, flagged := p.1.flagged, screenshotUrl := p.1.screenshotUrl,
     cameraUrl := p.1.cameraUrl },
   captureCount + 1, p.2)

/-! ## Work-session documents (`modules/firebase_api.py`) -/

/-- One element of a work log's `breaks` array: `startTime`, optional `endTime`,
and `durationMinutes`, filled in only once `endTime` is set. -/
structure BreakInterval where
  startMs : ℤ
  endMs : Option ℤ
  durationMinutes : Option ℤ
deriving DecidableEq, Repr

/-- The fields of an existing `work_logs` document that `handle_checkin` reads
after `get_active_session` (userId and status already filtered by the query:
status is `"active"` or `"break"`, most recent `checkInTime`, limit 1). -/
structure SessionDoc where
  id : String
  checkInTimeMs : ℤ
  status : String
  breaks : List BreakInterval
deriving DecidableEq, Repr

/-- Reconstruction of `total_break_sec` in `handle_checkin`
(crazydesk_tracker.py lines 221-232): for every interval with an `endTime`,
add `int((e - s) / 1000)`. -/
def closedBreakSeconds (breaks : List BreakInterval) : ℤ :=
  (breaks.filterMap fun b => b.endMs.map fun e => pyTruncDiv (e - b.startMs) 1000).sum

/-- Reconstruction of `break_start_ms` in `handle_checkin`
(crazydesk_tracker.py lines 234-245): the start of the last interval, when that
interval has no `endTime`. -/
def openLastBreakStart (breaks : List BreakInterval) : Option ℤ :=
  match breaks.getLast? with
  | some last => if last.endMs = none then some last.startMs else none
  | none => none

/-- Result dict of the check-in endpoint handler.  The `resumed` key is present
(and `true`) only on the resume path; the new-session path omits it. -/
structure CheckinResult where
  ok : Bool
  resumed : Option Bool
  sessionId : Option String
  error : Option String
deriving DecidableEq, Repr

/-- The `work_logs` document created by `check_in` (firebase_api.py lines
168-179). -/
structure NewWorkLog where
  userId : String
  userDisplayName : String
  checkInTimeMs : ℤ
  status : String
  source : String
  breaks : List BreakInterval
deriving DecidableEq, Repr

/-- `check_in` (firebase_api.py lines 168-179): the document it posts to
`work_logs`. -/
def check_in_doc (uid displayName : String) (nowMs : ℤ) : NewWorkLog :=
  { userId := uid, userDisplayName := displayName, checkInTimeMs := nowMs,
    status := "active", source := "desktop", breaks := [] }

/-- `handle_checkin` (crazydesk_tracker.py lines 194-274) after the token/uid
were stored by `set_session`.  Inputs from collaborators: `existing` is what
`get_active_session` returned, `newId` the id Firestore would assign on
creation, `createOk` whether the `check_in` write succeeds.  Returns the result
dict, the new tracker globals, and the created document (new-session path
only). -/
def handle_checkin (existing : Option SessionDoc) (uid displayName : String)
    (nowMs : ℤ) (newId : String) (createOk : Bool) (st : TrackerState) :
    CheckinResult × TrackerState × Option NewWorkLog :=
  match existing with
  | some ex =>
    let isOnBreak := ex.status = "break"
    (({ ok := true, resumed := some true, sessionId := some ex.id, error := none } :
        CheckinResult),
     { sessionId := some ex.id
       checkInTimeMs := some ex.checkInTimeMs
       isOnBreak := isOnBreak
       breakStartMs := if isOnBreak then openLastBreakStart ex.breaks else none
       totalBreakSec := closedBreakSeconds ex.breaks
       captureCount := st.captureCount },
     none)
  | none =>
    if createOk then
      (({ ok := true, resumed := none, sessionId := some newId, error := none } :
          CheckinResult),
       { sessionId := some newId, checkInTimeMs := some nowMs, isOnBreak := false,
         breakStartMs := none, totalBreakSec := 0, captureCount := 0 },
       some (check_in_doc uid displayName nowMs))
    else
      (({ ok := false, resumed := none, sessionId := none,
          error := some "Check-in failed" } : CheckinResult),
       st, none)

/-- The fields `check_out` patches onto the `work_logs` document
(firebase_api.py lines 284-296). -/
structure CheckOutPatch where
  checkOutTimeMs : ℤ
  status : String
  durationMinutes : ℤ
  breakDurationMinutes : ℤ
  report : String
  attachments : List String
  breaks : List BreakInterval
deriving DecidableEq, Repr

/-- Closing of a still-open final break in `check_out` (firebase_api.py lines
258-269): set `endTime = now`, `durationMinutes = round((now-start)/60000)`,
and remember `added_break_sec = int((now-start)/1000)`. -/
def closeOpenLastBreak (breaks : List BreakInterval) (nowMs : ℤ) :
    List BreakInterval × ℤ :=
  match breaks.getLast? with
  | some last =>
    if last.endMs = none then
      (breaks.dropLast ++
        [{ startMs := last.startMs, endMs := some nowMs,
           durationMinutes := some (pyRound (((nowMs - last.startMs : ℤ) : ℚ) / 60000)) }],
       pyTruncDiv (nowMs - last.startMs) 1000)
    else (breaks, 0)
  | none => (breaks, 0)

/-- `check_out` (firebase_api.py lines 249-296).  `breaks0` is the `breaks`
array of the session fetched by `_get_session_by_id` (empty when the fetch
fails); `totalBreakSec` is the caller's in-memory total. -/
def check_out (breaks0 : List BreakInterval) (nowMs checkInTimeMs : ℤ)
    (report proofLink : String) (totalBreakSec : ℤ) : CheckOutPatch :=
  let closed := closeOpenLastBreak breaks0 nowMs
  let totalRaw : ℤ :=
    if checkInTimeMs ≠ 0 then pyRound (((nowMs - checkInTimeMs : ℤ) : ℚ) / 60000) else 0
  let totalBreakMin := pyRound (((totalBreakSec + closed.2 : ℤ) : ℚ) / 60)
  { checkOutTimeMs := nowMs
    status := "completed"
    durationMinutes := max 0 (totalRaw - totalBreakMin)
    breakDurationMinutes := totalBreakMin
    report := report
    attachments := if proofLink ≠ "" then [proofLink] else []
    breaks := closed.1 }

/-- Result dict of the refresh/checkout/break/resume endpoints. -/
structure ApiResult where
  ok : Bool
  error : Option String
deriving DecidableEq, Repr

/-- `handle_checkout` (crazydesk_tracker.py lines 300-329).  `sessionBreaks` is
the breaks array of the session document `check_out` fetches, `persistOk`
whether the patch write succeeds.  Returns the result dict, the tracker globals
afterwards, and the patch applied to the store (none when nothing was
written). -/
def handle_checkout (st : TrackerState) (report proofLink : String)
    (sessionBreaks : List BreakInterval) (nowMs : ℤ) (persistOk : Bool) :
    ApiResult × TrackerState × Option CheckOutPatch :=
  match st.sessionId with
  | none => ({ ok := false, error := some "No active session" }, st, none)
  | some _ =>
    if report = "" then
      ({ ok := false, error := some "Report is required" }, st, none)
    else
      let patch :=
        check_out sessionBreaks nowMs (st.checkInTimeMs.getD 0) report proofLink
          st.totalBreakSec
      if persistOk then
        ({ ok := true, error := none },
         { sessionId := none, checkInTimeMs := none, isOnBreak := false,
           breakStartMs := none, totalBreakSec := 0,
           captureCount := st.captureCount },
         some patch)
      else
        ({ ok := false, error := some "Checkout failed" }, st, none)

/-- The fields `emergency_check_out` patches onto the `work_logs` document
(firebase_api.py lines 333-346). -/
structure EmergencyPatch where
  checkOutTimeMs : ℤ
  status : String
  durationMinutes : ℤ
  breakDurationMinutes : ℤ
  report : String
  attachments : List String
  flagged : Bool
  flagReason : String
deriving DecidableEq, Repr

/-- `emergency_check_out` (firebase_api.py lines 312-359).  Returns the patch it
wrote (none when the guard skips the write or the write fails) and whether an
exception reached the caller — always `false`: everything past the guard sits
in a `try` whose `except` only logs. -/
def emergency_check_out (sessionId : String) (hasToken : Bool)
    (checkInTimeMs totalBreakSec nowMs : ℤ) (persistOk : Bool) :
    Option EmergencyPatch × Bool :=
  if sessionId = "" ∨ hasToken = false then (none, false)
  else
    let totalRaw : ℤ :=
      if checkInTimeMs ≠ 0 then pyRound (((nowMs - checkInTimeMs : ℤ) : ℚ) / 60000) else 0
    let totalBreakMin := pyRound ((totalBreakSec : ℚ) / 60)
    let patch : EmergencyPatch :=
      { checkOutTimeMs := nowMs
        status := "completed"
        durationMinutes := max 0 (totalRaw - totalBreakMin)
        breakDurationMinutes := totalBreakMin
        report := "[Auto] App closed without manual checkout"
        attachments := []
        flagged := true
        flagReason := "App quit or crashed without manual checkout" }
    if persistOk then (some patch, false) else (none, false)

/-! ## Activity accumulator (`modules/activity.py`) -/

/-- The two module-level counters guarded by `_lock`. -/
structure ActivityCounters where
  mouseClicks : ℕ
  keystrokes : ℕ
deriving DecidableEq, Repr

/-- `flush_activity` (activity.py lines 53-84).  The locked block reads and
zeroes both counters; `inc` are the events the two input listeners record
between that read-and-reset and the end of the call (they land on the live,
already-reset counters); on a failed `save_activity_log` the `except` block adds
the flushed delta back.  Returns the live counters afterwards and the number of
persistence calls made. -/
def flush_activity (st : ActivityCounters) (hasSession saveOk : Bool)
    (inc : ActivityCounters) : ActivityCounters × ℕ :=
  let clicks := st.mouseClicks
  let keys := st.keystrokes
  let live : ActivityCounters := inc
  if clicks = 0 ∧ keys = 0 then (live, 0)
  else if hasSession = false then (live, 0)
  else if saveOk then (live, 1)
  else ({ mouseClicks := live.mouseClicks + clicks,
          keystrokes := live.keystrokes + keys }, 1)

/-! ## Local API server dispatch (`modules/local_server.py`) -/

/-- POST `/api/checkin` dispatch (local_server.py lines 104-109) composed with
`handle_checkin`: a missing (falsy) token or uid is rejected with HTTP 400 and
the handler never runs.  Returns (HTTP status, error string of the body), the
tracker globals afterwards, and any created document. -/
def api_checkin (token uid : String) (existing : Option SessionDoc)
    (displayName : String) (nowMs : ℤ) (newId : String) (createOk : Bool)
    (st : TrackerState) :
    (ℕ × Option String) × TrackerState × Option NewWorkLog :=
  if token = "" ∨ uid = "" then ((400, some "Missing token or uid"), st, none)
  else
    let h := handle_checkin existing uid displayName nowMs newId createOk st
    ((200, h.1.error), h.2.1, h.2.2)

/-- POST `/api/break` dispatch (local_server.py lines 126-128): call the
registered `_on_break` handler, or answer `{"ok": false}` when none is
registered. -/
def api_break (onBreak : Option (TrackerState → ApiResult × TrackerState))
    (st : TrackerState) : ApiResult × TrackerState :=
  match onBreak with
  | none => ({ ok := false, error := none }, st)
  | some f => f st

/-- POST `/api/resume` dispatch (local_server.py lines 130-132). -/
def api_resume (onResume : Option (TrackerState → ApiResult × TrackerState))
    (st : TrackerState) : ApiResult × TrackerState :=
  match onResume with
  | none => ({ ok := false, error := none }, st)
  | some f => f st

/-- The `on_break` handler registered by `main` (crazydesk_tracker.py lines
404-410): `set_handlers` is called with `on_checkin`, `on_refresh`,
`on_capture`, `on_checkout` and `get_status` only, so `on_break` keeps its
default `None` — no break handler exists anywhere in `crazydesk_tracker.py`. -/
def main_on_break : Option (TrackerState → ApiResult × TrackerState) := none

/-- The `on_resume` handler registered by `main` (crazydesk_tracker.py lines
404-410): likewise left at its default `None`. -/
def main_on_resume : Option (TrackerState → ApiResult × TrackerState) := none

/-! ## Break-accounting helper definitions and lemmas -/

/-- Spec-side total: the break seconds of every interval, any still-open
interval closed at `nowMs` first ("sum of (end-start) over all intervals, with
any still-open interval closed using checkout time"). -/
def allBreakSecondsClosedAt (breaks : List BreakInterval) (nowMs : ℤ) : ℤ :=
  (breaks.map fun b => pyTruncDiv (b.endMs.getD nowMs - b.startMs) 1000).sum

/-! ## Claim postconditions -/

/-- Post-state of the resume path of `handle_checkin`: resumed flag, resumed
session id, in-memory break totals rebuilt as the sum of (end-start) over the
closed intervals, the open last interval's start as break-start marker, and no
document created. -/
def ResumePost (ex : SessionDoc) (uid dn : String) (nowMs : ℤ) (newId : String)
    (cok : Bool) (st : TrackerState) : Prop :=
  (handle_checkin (some ex) uid dn nowMs newId cok st).1.resumed = some true ∧
  (handle_checkin (some ex) uid dn nowMs newId cok st).1.sessionId = some ex.id ∧
  (handle_checkin (some ex) uid dn nowMs newId cok st).2.1.sessionId = some ex.id ∧
  (handle_checkin (some ex) uid dn nowMs newId cok st).2.1.checkInTimeMs =
    some ex.checkInTimeMs ∧
  (handle_checkin (some ex) uid dn nowMs newId cok st).2.1.totalBreakSec =
    ((ex.breaks.filter fun b => b.endMs.isSome).map
      fun b => pyTruncDiv (b.endMs.getD 0 - b.startMs) 1000).sum ∧
  (∀ last, ex.breaks.getLast? = some last → last.endMs = none →
    (handle_checkin (some ex) uid dn nowMs newId cok st).2.1.breakStartMs =
      some last.startMs) ∧
  (handle_checkin (some ex) uid dn nowMs newId cok st).2.2 = none

/-- Post-state of the create path of `handle_checkin`: a new document with
status `"active"`, `checkInTime = now`, empty breaks, and its id returned
(without a `resumed` key). -/
def CreatePost (uid dn : String) (nowMs : ℤ) (newId : String)
    (st : TrackerState) : Prop :=
  (handle_checkin none uid dn nowMs newId true st).1.sessionId = some newId ∧
  (handle_checkin none uid dn nowMs newId true st).1.ok = true ∧
  (handle_checkin none uid dn nowMs newId true st).1.resumed = none ∧
  (handle_checkin none uid dn nowMs newId true st).2.2 =
    some (check_in_doc uid dn nowMs) ∧
  (check_in_doc uid dn nowMs).status = "active" ∧
  (check_in_doc uid dn nowMs).checkInTimeMs = nowMs ∧
  (check_in_doc uid dn nowMs).breaks = [] ∧
  (handle_checkin none uid dn nowMs newId true st).2.1.sessionId = some newId

/-- Post-state of a successful checkout: the claim's field-by-field description
of the patch written by `check_out` on behalf of `handle_checkout`. -/
def CheckoutPost (st : TrackerState) (report proofLink : String)
    (sessionBreaks : List BreakInterval) (nowMs ci : ℤ) : Prop :=
  ∃ patch,
    (handle_checkout st report proofLink sessionBreaks nowMs true).2.2 = some patch ∧
    (handle_checkout st report proofLink sessionBreaks nowMs true).1.ok = true ∧
    patch.status = "completed" ∧
    patch.checkOutTimeMs = nowMs ∧
    patch.report = report ∧
    patch.attachments = (if proofLink ≠ "" then [proofLink] else []) ∧
    patch.breakDurationMinutes =
      pyRound ((allBreakSecondsClosedAt sessionBreaks nowMs : ℚ) / 60) ∧
    patch.durationMinutes =
      max 0 (pyRound (((nowMs - ci : ℤ) : ℚ) / 60000) - patch.breakDurationMinutes) ∧
    (∀ b ∈ patch.breaks, b.endMs ≠ none) ∧
    (∀ last, sessionBreaks.getLast? = some last → last.endMs = none →
      patch.breaks = sessionBreaks.dropLast ++
        [{ startMs := last.startMs, endMs := some nowMs,
           durationMinutes :=
             some (pyRound (((nowMs - last.startMs : ℤ) : ℚ) / 60000)) }])

/-- The patch `emergency_check_out` builds past its guard, spelled out (used to
instantiate the existential in the C9 theorem). -/
def emergencyPatchOf (ci tbs nowMs : ℤ) : EmergencyPatch :=
  { checkOutTimeMs := nowMs
    status := "completed"
    durationMinutes := max 0
      ((if ci ≠ 0 then pyRound (((nowMs - ci : ℤ) : ℚ) / 60000) else 0) -
        pyRound ((tbs : ℚ) / 60))
    breakDurationMinutes := pyRound ((tbs : ℚ) / 60)
    report := "[Auto] App closed without manual checkout"
    attachments := []
    flagged := true
    flagReason := "App quit or crashed without manual checkout" }

/-- Field-by-field post-state of `emergency_check_out` past its guard, with the
duration math expressed as the `check_out` formulas applied to an empty breaks
array and the caller's in-memory total-break-seconds. -/
def EmergencyPost (sid : String) (ci tbs nowMs : ℤ) : Prop :=
  ∃ p, (emergency_check_out sid true ci tbs nowMs true).1 = some p ∧
    p.status = "completed" ∧
    p.checkOutTimeMs = nowMs ∧
    p.flagged = true ∧
    p.flagReason = "App quit or crashed without manual checkout" ∧
    p.report = "[Auto] App closed without manual checkout" ∧
    p.attachments = [] ∧
    p.durationMinutes = (check_out [] nowMs ci "r" "" tbs).durationMinutes ∧
    p.breakDurationMinutes = (check_out [] nowMs ci "r" "" tbs).breakDurationMinutes

/-! ## Concrete fixtures used by witnesses and counterexamples -/

/-- A fully-succeeding collaborator environment for a capture run. -/
def envW : CapEnv :=
  { uid := "u1", displayName := "Ada", cancelled := false,
    screenshotUrl := some "https://cdn/s.jpg", cameraUrl := some "https://cdn/c.jpg",
    logSaveOk := true }

/-- A capture environment whose countdown gets cancelled mid-run. -/
def envCancelled : CapEnv :=
  { uid := "u1", displayName := "Ada", cancelled := true,
    screenshotUrl := none, cameraUrl := none, logSaveOk := true }

/-- The shutdown race of the capture subsystem, from the idle state: an auto
capture acquires the flag and passes its countdown into the non-cancelable
acquisition phase; `stop_all_tracking` runs (checkout or quit) and
unconditionally frees the flag; a control-surface capture request then acquires
the freed flag (its countdown clears the stale cancellation event) and both
runs complete, each writing a CaptureRecord. -/
def stopRaceTrace : List CapEvent :=
  [.trigger "auto" envW, .countdownDone 0, .stop, .trigger "remote" envW,
   .countdownDone 1, .finishRun 0, .finishRun 0]

/-- Idle executor state. -/
def idleCapSt : CapState := { busy := false, records := [] }

/-- Busy executor state seen by run-to-completion callers. -/
def busyCapSt : CapState := { busy := true, records := [] }

/-- An existing session document on break: one closed interval of 121 seconds
and one open interval. -/
def exW : SessionDoc :=
  { id := "sess1", checkInTimeMs := 1000, status := "break",
    breaks := [{ startMs := 60000, endMs := some 181000, durationMinutes := some 2 },
               { startMs := 300000, endMs := none, durationMinutes := none }] }

/-- Tracker globals before any check-in. -/
def stIdle : TrackerState :=
  { sessionId := none, checkInTimeMs := none, isOnBreak := false,
    breakStartMs := none, totalBreakSec := 0, captureCount := 0 }

/-- Tracker globals of an active session whose document is `exW`-like: one
121-second closed break and one open break, in-memory total 121 s. -/
def stCheckout : TrackerState :=
  { sessionId := some "sess1", checkInTimeMs := some 1000, isOnBreak := true,
    breakStartMs := some 300000, totalBreakSec := 121, captureCount := 3 }

/-- The breaks array of the session document at checkout time. -/
def breaksW : List BreakInterval :=
  [{ startMs := 60000, endMs := some 181000, durationMinutes := some 2 },
   { startMs := 300000, endMs := none, durationMinutes := none }]

/-- Tracker globals of an active session, as used by the C6/C7 fixtures. -/
def stActive : TrackerState :=
  { sessionId := some "sess1", checkInTimeMs := some 1000, isOnBreak := false,
    breakStartMs := none, totalBreakSec := 120, captureCount := 3 }

theorem closedBreakSeconds_eq_filter (l : List BreakInterval) :
    closedBreakSeconds l =
      ((l.filter fun b => b.endMs.isSome).map
        fun b => pyTruncDiv (b.endMs.getD 0 - b.startMs) 1000).sum := by
  induction l with
  | nil => rfl
  | cons b tl ih =>
    cases hb : b.endMs with
    | none =>
      have h1 : closedBreakSeconds (b :: tl) = closedBreakSeconds tl := by
        simp [closedBreakSeconds, List.filterMap_cons, hb]
      have h2 : (b :: tl).filter (fun x => x.endMs.isSome) =
          tl.filter (fun x => x.endMs.isSome) := by
        simp [List.filter_cons, hb]
      rw [h1, h2, ih]
    | some e =>
      have h1 : closedBreakSeconds (b :: tl) =
          pyTruncDiv (e - b.startMs) 1000 + closedBreakSeconds tl := by
        simp [closedBreakSeconds, List.filterMap_cons, hb]
      have h2 : (b :: tl).filter (fun x => x.endMs.isSome) =
          b :: tl.filter (fun x => x.endMs.isSome) := by
        simp [List.filter_cons, hb]
      rw [h1, h2, ih]
      simp [hb]

theorem closedBreakSeconds_of_all_closed (l : List BreakInterval) (nowMs : ℤ)
    (h : ∀ b ∈ l, b.endMs ≠ none) :
    closedBreakSeconds l = allBreakSecondsClosedAt l nowMs := by
  induction l with
  | nil => rfl
  | cons b tl ih =>
    have hb := h b (List.mem_cons_self b tl)
    cases he : b.endMs with
    | none => exact absurd he hb
    | some e =>
      have ih' := ih fun x hx => h x (List.mem_cons_of_mem _ hx)
      simp [closedBreakSeconds, allBreakSecondsClosedAt, List.filterMap_cons, he,
        List.sum_cons] at *
      simp [ih']

theorem closedBreakSeconds_add_closeOpen (l : List BreakInterval) (nowMs : ℤ)
    (hwf : ∀ b ∈ l.dropLast, b.endMs ≠ none) :
    closedBreakSeconds l + (closeOpenLastBreak l nowMs).2 =
      allBreakSecondsClosedAt l nowMs := by
  rcases List.eq_nil_or_concat l with rfl | ⟨init, a, rfl⟩
  · rfl
  · simp only [List.concat_eq_append] at hwf ⊢
    have hinit : ∀ b ∈ init, b.endMs ≠ none := by
      intro b hb
      exact hwf b (by simpa [List.dropLast_concat] using hb)
    have hsplit : closedBreakSeconds (init ++ [a]) =
        closedBreakSeconds init + closedBreakSeconds [a] := by
      simp [closedBreakSeconds, List.filterMap_append]
    have hsplit' : allBreakSecondsClosedAt (init ++ [a]) nowMs =
        allBreakSecondsClosedAt init nowMs + allBreakSecondsClosedAt [a] nowMs := by
      simp [allBreakSecondsClosedAt]
    have hlast : (init ++ [a]).getLast? = some a := List.getLast?_concat _
    cases he : a.endMs with
    | none =>
      have h2 : (closeOpenLastBreak (init ++ [a]) nowMs).2 =
          pyTruncDiv (nowMs - a.startMs) 1000 := by
        simp [closeOpenLastBreak, hlast, he]
      rw [hsplit, hsplit', h2, closedBreakSeconds_of_all_closed init nowMs hinit]
      simp [closedBreakSeconds, allBreakSecondsClosedAt, List.filterMap_cons, he]
    | some e =>
      have h2 : (closeOpenLastBreak (init ++ [a]) nowMs).2 = 0 := by
        simp [closeOpenLastBreak, hlast, he]
      rw [hsplit, hsplit', h2, closedBreakSeconds_of_all_closed init nowMs hinit]
      simp [closedBreakSeconds, allBreakSecondsClosedAt, List.filterMap_cons, he]

theorem closeOpenLastBreak_all_closed (l : List BreakInterval) (nowMs : ℤ)
    (hwf : ∀ b ∈ l.dropLast, b.endMs ≠ none) :
    ∀ b ∈ (closeOpenLastBreak l nowMs).1, b.endMs ≠ none := by
  rcases List.eq_nil_or_concat l with rfl | ⟨init, a, rfl⟩
  · intro b hb; simp [closeOpenLastBreak] at hb
  · simp only [List.concat_eq_append] at hwf ⊢
    have hinit : ∀ b ∈ init, b.endMs ≠ none := by
      intro b hb
      exact hwf b (by simpa [List.dropLast_concat] using hb)
    have hlast : (init ++ [a]).getLast? = some a := List.getLast?_concat _
    cases he : a.endMs with
    | none =>
      intro b hb
      simp [closeOpenLastBreak, hlast, he, List.dropLast_concat] at hb
      rcases hb with hb | hb
      · exact hinit b hb
      · simp [hb]
    | some e =>
      intro b hb
      simp [closeOpenLastBreak, hlast, he] at hb
      rcases hb with hb | hb
      · exact hinit b hb
      · simp [hb, he]

/-! ## Claims -/

/-- C1 failing trace: `stop_all_tracking` (capture.py lines 423-429)
unconditionally clears `_capture_in_progress` while an auto capture is in its
non-cancelable acquisition phase; a control-surface trigger arriving next is
not skipped — after it, two capture sequences are simultaneously in flight,
one of them past its countdown (first conjunct), no step of the trace returned
a skipped result (second conjunct), and the trace ends with two
CaptureRecords, one written by each overlapping run (remaining conjuncts) —
against the claimed (and intended: the module docstring says only one capture
can run at a time) single-flight invariant. -/
theorem capture_single_flight_violation :
    (capRunEvents capInit (stopRaceTrace.take 4)).1.runs =
      [("auto", envW, RunPhase.acquiring), ("remote", envW, RunPhase.countdown)] ∧
    (capRunEvents capInit stopRaceTrace).2 =
      [none, none, none, none, none,
       some (doneCapResultOf envW), some (doneCapResultOf envW)] ∧
    (capRunEvents capInit stopRaceTrace).1.records =
      [captureRecordOf "auto" envW, captureRecordOf "remote" envW] ∧
    (capRunEvents capInit stopRaceTrace).1.records.length = 2 := by
  refine ⟨by decide, by decide, by decide, by decide⟩

/-- C10: every control-surface capture request increments the `captureCount`
reported by Status, even when the executor was busy and the request came back
`skipped=true` without writing a CaptureRecord — so the count can exceed the
number of records ever created. -/
theorem capture_count_includes_skipped (env : CapEnv) (n : ℕ) (cs : CapState)
    (hb : cs.busy = true) :
    (handle_capture env n cs).2.1 = n + 1 ∧
    (handle_capture env n cs).1.ok = true ∧
    (perform_capture "remote" env cs).1.skipped = true ∧
    (handle_capture env n cs).2.2.records = cs.records ∧
    (n = cs.records.length →
      (handle_capture env n cs).2.2.records.length < (handle_capture env n cs).2.1) := by
  refine ⟨rfl, rfl, by simp [perform_capture, hb, skippedCapResult], ?_, ?_⟩
  · simp [handle_capture, perform_capture, hb]
  · intro hn
    simp [handle_capture, perform_capture, hb, ← hn]

/-- Witness for C10: a busy executor, a request, count goes from 0 to 1 while
zero records exist. -/
theorem capture_count_includes_skipped_witness :
    (handle_capture envW 0 busyCapSt).2.1 = 0 + 1 ∧
    (handle_capture envW 0 busyCapSt).1.ok = true ∧
    (perform_capture "remote" envW busyCapSt).1.skipped = true ∧
    (handle_capture envW 0 busyCapSt).2.2.records = busyCapSt.records ∧
    (0 = busyCapSt.records.length →
      (handle_capture envW 0 busyCapSt).2.2.records.length <
        (handle_capture envW 0 busyCapSt).2.1) :=
  capture_count_includes_skipped envW 0 busyCapSt rfl

/-- C4: the automatic-capture scheduler draws the first delay uniformly from
[3, 5) minutes (range and surjectivity of the affine draw); after an executed
non-skipped capture the next attempt is scheduled after 120 s plus a uniform
[10, 30)-minute jitter; an attempt that finds the executor busy runs no capture
and reschedules after the bare 120-second cooldown only. -/
theorem auto_capture_schedule :
    (∀ r : ℚ, 0 ≤ r → r < 1 →
      180 ≤ first_capture_delay_sec r ∧ first_capture_delay_sec r < 300) ∧
    (∀ d : ℚ, 180 ≤ d → d < 300 →
      ∃ r : ℚ, 0 ≤ r ∧ r < 1 ∧ first_capture_delay_sec r = d) ∧
    (∀ (env : CapEnv) (r : ℚ) (cs : CapState), 0 ≤ r → r < 1 → cs.busy = false →
      env.uid ≠ "" → env.cancelled = false →
      (do_auto_capture true env r cs).2.1 = some (perform_capture "auto" env cs).1 ∧
      (perform_capture "auto" env cs).1.skipped = false ∧
      (do_auto_capture true env r cs).2.2 = some (reschedule_after_capture_delay r) ∧
      120 + 600 ≤ reschedule_after_capture_delay r ∧
      reschedule_after_capture_delay r < 120 + 1800) ∧
    (∀ (env : CapEnv) (r : ℚ) (cs : CapState), cs.busy = true →
      do_auto_capture true env r cs = (cs, none, some POST_CAPTURE_COOLDOWN_SEC) ∧
      POST_CAPTURE_COOLDOWN_SEC = 120) := by
  refine ⟨?_, ?_, ?_, ?_⟩
  · intro r h0 h1
    unfold first_capture_delay_sec
    constructor <;> nlinarith
  · intro d h0 h1
    refine ⟨(d - 180) / 120, div_nonneg (by linarith) (by norm_num), ?_, ?_⟩
    · rw [div_lt_one (by norm_num)]; linarith
    · unfold first_capture_delay_sec; field_simp; ring
  · intro env r cs h0 h1 hb hu hc
    refine ⟨?_, ?_, ?_, ?_, ?_⟩
    · simp [do_auto_capture, hb]
    · simp [perform_capture, hb, capture_run_body, hu, hc, doneCapResultOf]
    · simp [do_auto_capture, hb]
    · unfold reschedule_after_capture_delay random_delay_sec POST_CAPTURE_COOLDOWN_SEC
        CAPTURE_MIN_MIN CAPTURE_MAX_MIN
      nlinarith
    · unfold reschedule_after_capture_delay random_delay_sec POST_CAPTURE_COOLDOWN_SEC
        CAPTURE_MIN_MIN CAPTURE_MAX_MIN
      nlinarith
  · intro env r cs hb
    exact ⟨by simp [do_auto_capture, hb], rfl⟩

/-- Witness for C4 at the draw r = 1/2 and a busy executor state. -/
theorem auto_capture_schedule_witness :
    (180 ≤ first_capture_delay_sec (1/2) ∧ first_capture_delay_sec (1/2) < 300) ∧
    (do_auto_capture true envW (1/2) busyCapSt =
      (busyCapSt, none, some POST_CAPTURE_COOLDOWN_SEC)) ∧
    (do_auto_capture true envW (1/2) idleCapSt).2.2 =
      some (reschedule_after_capture_delay (1/2)) :=
  ⟨auto_capture_schedule.1 (1/2) (by norm_num) (by norm_num),
   (auto_capture_schedule.2.2.2 envW (1/2) busyCapSt rfl).1,
   (auto_capture_schedule.2.2.1 envW (1/2) idleCapSt (by norm_num) (by norm_num)
     rfl (by decide) rfl).2.2.1⟩

/-- C5 counterexample: a poll tick with one pending command, an idle executor,
and a countdown that gets cancelled mid-run: the capture comes back with
`skipped=true`, yet `complete_capture_command` is still called for the command —
the code does not guard the acknowledgement on a non-skipped execution. -/
theorem remote_complete_despite_skipped :
    (remote_poll_tick true [{ id := "cmd1" }] envCancelled true 0 idleCapSt).2.1 =
      some skippedCapResult ∧
    (remote_poll_tick true [{ id := "cmd1" }] envCancelled true 0 idleCapSt).2.2.1 =
      ["cmd1"] := by
  refine ⟨?_, ?_⟩ <;> rfl

/-- C5 as amended: each 15-second tick executes at most one command even if
more are listed; a tick that finds the executor busy acknowledges nothing and
changes nothing, leaving the command pending for the next tick; and a tick that
finds the executor idle executes the first pending command, then marks it
complete and forces the scheduler to reschedule with the cooldown-plus-jitter
formula after every such execution attempt — even one whose capture was skipped
because the countdown was cancelled. -/
theorem remote_poll_tick_behavior :
    (∀ (hs : Bool) (cmds : List RemoteCommand) (env : CapEnv) (ar : Bool) (r : ℚ)
        (cs : CapState),
      (remote_poll_tick hs cmds env ar r cs).2.2.1.length ≤ 1) ∧
    (∀ (cmds : List RemoteCommand) (env : CapEnv) (ar : Bool) (r : ℚ)
        (cs : CapState), cs.busy = true →
      remote_poll_tick true cmds env ar r cs = (cs, none, [], none)) ∧
    (∀ (cmd : RemoteCommand) (rest : List RemoteCommand) (env : CapEnv) (r : ℚ)
        (cs : CapState), cs.busy = false → cmd.id ≠ "" →
      (remote_poll_tick true (cmd :: rest) env true r cs).2.1 =
        some (perform_capture "manual" env cs).1 ∧
      (remote_poll_tick true (cmd :: rest) env true r cs).2.2.1 = [cmd.id] ∧
      (remote_poll_tick true (cmd :: rest) env true r cs).2.2.2 =
        some (reschedule_after_capture_delay r)) := by
  refine ⟨?_, ?_, ?_⟩
  · intro hs cmds env ar r cs
    cases hs with
    | false => simp [remote_poll_tick]
    | true =>
      cases cmds with
      | nil => simp [remote_poll_tick]
      | cons cmd rest =>
        by_cases hb : cs.busy
        · simp [remote_poll_tick, hb]
        · by_cases hid : cmd.id = ""
          · simp [remote_poll_tick, hb, hid]
          · simp [remote_poll_tick, hb, hid]
  · intro cmds env ar r cs hb
    cases cmds with
    | nil => simp [remote_poll_tick]
    | cons cmd rest => simp [remote_poll_tick, hb]
  · intro cmd rest env r cs hb hid
    refine ⟨?_, ?_, ?_⟩ <;> simp [remote_poll_tick, hb, hid]

/-- Witness for the amended C5: three pending commands, idle executor — the
first is executed and completed, the other two stay pending; a busy tick
acknowledges nothing. -/
theorem remote_poll_tick_behavior_witness :
    (remote_poll_tick true [{ id := "c1" }, { id := "c2" }, { id := "c3" }] envW
        true (1/2) idleCapSt).2.2.1 = ["c1"] ∧
    remote_poll_tick true [{ id := "c1" }] envW true (1/2) busyCapSt =
      (busyCapSt, none, [], none) :=
  ⟨(remote_poll_tick_behavior.2.2 { id := "c1" } [{ id := "c2" }, { id := "c3" }]
      envW (1/2) idleCapSt rfl (by decide)).2.1,
   remote_poll_tick_behavior.2.1 [{ id := "c1" }] envW true (1/2) busyCapSt rfl⟩

/-- Helper: the element returned by `getLast?` is a member of the list. -/
theorem mem_of_getLast?_eq {α : Type} {l : List α} {a : α}
    (h : l.getLast? = some a) : a ∈ l := by
  rcases List.eq_nil_or_concat l with rfl | ⟨init, b, rfl⟩
  · simp at h
  · simp only [List.concat_eq_append, List.getLast?_concat, Option.some.injEq] at h
    simp [h]

/-- C2: CheckIn with an existing active/break session (most recent, limit 1 —
guaranteed by the `get_active_session` query) resumes it instead of creating a
new one, rebuilding the in-memory totals; with no existing session it creates a
fresh active session and returns its id.  The hypothesis that an `active`
session has no open interval is the data-model invariant (at most one open
break, only while on break). -/
theorem checkin_resume_or_create :
    (∀ (ex : SessionDoc) (uid dn : String) (nowMs : ℤ) (newId : String)
        (cok : Bool) (st : TrackerState),
      ex.status = "active" ∨ ex.status = "break" →
      (ex.status = "active" → ∀ b ∈ ex.breaks, b.endMs ≠ none) →
      ResumePost ex uid dn nowMs newId cok st) ∧
    (∀ (uid dn : String) (nowMs : ℤ) (newId : String) (st : TrackerState),
      CreatePost uid dn nowMs newId st) := by
  constructor
  · intro ex uid dn nowMs newId cok st hstat hact
    refine ⟨rfl, rfl, rfl, rfl, ?_, ?_, rfl⟩
    · exact closedBreakSeconds_eq_filter ex.breaks
    · intro last hl he
      have hbrk : ex.status = "break" := by
        rcases hstat with h | h
        · exact absurd he (hact h last (mem_of_getLast?_eq hl))
        · exact h
      show (if ex.status = "break" then openLastBreakStart ex.breaks else none) =
        some last.startMs
      simp [hbrk, openLastBreakStart, hl, he]
  · intro uid dn nowMs newId st
    exact ⟨rfl, rfl, rfl, rfl, rfl, rfl, rfl, rfl⟩

/-- Witness for C2: resume of `exW` and creation with no existing session. -/
theorem checkin_resume_or_create_witness :
    ResumePost exW "u1" "Ada" 500000 "new1" true stIdle ∧
    CreatePost "u1" "Ada" 500000 "new1" stIdle :=
  ⟨checkin_resume_or_create.1 exW "u1" "Ada" 500000 "new1" true stIdle
    (Or.inr rfl) (by decide),
   checkin_resume_or_create.2 "u1" "Ada" 500000 "new1" stIdle⟩

/-- C3: CheckOut with a non-empty report and an active session closes any
still-open break interval at `now`, sets `breakDurationMinutes` to the
(rounded-to-minutes) sum of all break-interval durations including the
just-closed one, sets `durationMinutes = max(0, round((now-checkInTime)/60s) -
breakDurationMinutes)`, and sets status, checkOutTime, report and attachments
as specified.  `htb` ties the in-memory total to the document's closed
intervals (the reconstruction `handle_checkin` performs); `hwf` is the
data-model invariant that only the last interval can be open. -/
theorem checkout_fields (st : TrackerState) (sid : String) (ci : ℤ)
    (report proofLink : String) (sessionBreaks : List BreakInterval) (nowMs : ℤ)
    (hsid : st.sessionId = some sid) (hci : st.checkInTimeMs = some ci)
    (hci0 : ci ≠ 0) (hrep : report ≠ "")
    (hwf : ∀ b ∈ sessionBreaks.dropLast, b.endMs ≠ none)
    (htb : st.totalBreakSec = closedBreakSeconds sessionBreaks) :
    CheckoutPost st report proofLink sessionBreaks nowMs ci := by
  refine ⟨check_out sessionBreaks nowMs ci report proofLink st.totalBreakSec,
    ?_, ?_, rfl, rfl, rfl, rfl, ?_, ?_, ?_, ?_⟩
  · simp [handle_checkout, hsid, hrep, hci]
  · simp [handle_checkout, hsid, hrep, hci]
  · show pyRound (((st.totalBreakSec + (closeOpenLastBreak sessionBreaks nowMs).2 : ℤ) :
      ℚ) / 60) = pyRound ((allBreakSecondsClosedAt sessionBreaks nowMs : ℚ) / 60)
    rw [htb, closedBreakSeconds_add_closeOpen sessionBreaks nowMs hwf]
  · show max 0 ((if ci ≠ 0 then pyRound (((nowMs - ci : ℤ) : ℚ) / 60000) else 0) -
      pyRound (((st.totalBreakSec + (closeOpenLastBreak sessionBreaks nowMs).2 : ℤ) :
        ℚ) / 60)) = _
    rw [if_pos hci0]
    rfl
  · exact closeOpenLastBreak_all_closed sessionBreaks nowMs hwf
  · intro last hl he
    show (closeOpenLastBreak sessionBreaks nowMs).1 = _
    simp [closeOpenLastBreak, hl, he]

/-- Witness for C3 at a concrete state: checkout at t = 500000 ms. -/
theorem checkout_fields_witness :
    CheckoutPost stCheckout "did things" "https://proof" breaksW 500000 1000 :=
  checkout_fields stCheckout "sess1" 1000 "did things" "https://proof" breaksW
    500000 rfl rfl (by decide) (by decide) (by decide) (by decide)

/-- C7: the three user-facing failures — missing token/uid on CheckIn, no
active session on CheckOut, empty report on CheckOut — are each returned
synchronously as a tagged failure, the handler body never runs, nothing is
persisted, and the tracker session state is returned unchanged. -/
theorem user_facing_failures_preserve_state :
    (∀ (token uid : String) (existing : Option SessionDoc) (dn : String)
        (nowMs : ℤ) (newId : String) (cok : Bool) (st : TrackerState),
      token = "" ∨ uid = "" →
      api_checkin token uid existing dn nowMs newId cok st =
        ((400, some "Missing token or uid"), st, none)) ∧
    (∀ (st : TrackerState) (report proofLink : String)
        (sessionBreaks : List BreakInterval) (nowMs : ℤ) (pOk : Bool),
      st.sessionId = none →
      handle_checkout st report proofLink sessionBreaks nowMs pOk =
        ({ ok := false, error := some "No active session" }, st, none)) ∧
    (∀ (st : TrackerState) (sid proofLink : String)
        (sessionBreaks : List BreakInterval) (nowMs : ℤ) (pOk : Bool),
      st.sessionId = some sid →
      handle_checkout st "" proofLink sessionBreaks nowMs pOk =
        ({ ok := false, error := some "Report is required" }, st, none)) := by
  refine ⟨?_, ?_, ?_⟩
  · intro token uid existing dn nowMs newId cok st h
    rcases h with h | h <;> simp [api_checkin, h]
  · intro st report proofLink sessionBreaks nowMs pOk h
    simp [handle_checkout, h]
  · intro st sid proofLink sessionBreaks nowMs pOk h
    simp [handle_checkout, h]

/-- Witness for C7: all three failures at concrete states, state unchanged. -/
theorem user_facing_failures_preserve_state_witness :
    api_checkin "" "u1" none "Ada" 500000 "new1" true stActive =
      ((400, some "Missing token or uid"), stActive, none) ∧
    handle_checkout stIdle "did things" "" breaksW 500000 true =
      ({ ok := false, error := some "No active session" }, stIdle, none) ∧
    handle_checkout stActive "" "" breaksW 500000 true =
      ({ ok := false, error := some "Report is required" }, stActive, none) :=
  ⟨user_facing_failures_preserve_state.1 "" "u1" none "Ada" 500000 "new1" true
    stActive (Or.inl rfl),
   user_facing_failures_preserve_state.2.1 stIdle "did things" "" breaksW 500000
    true rfl,
   user_facing_failures_preserve_state.2.2 stActive "sess1" "" breaksW 500000
    true rfl⟩

/-- C8: a flush that reads (c, k) and whose persistence call fails while
(c', k') new events were recorded in the meantime leaves the live counters at
(c + c', k + k') — nothing is permanently lost; and a flush that reads (0, 0)
makes no persistence call. -/
theorem activity_flush_loss_free :
    (∀ (c k : ℕ) (inc : ActivityCounters), ¬(c = 0 ∧ k = 0) →
      flush_activity { mouseClicks := c, keystrokes := k } true false inc =
        ({ mouseClicks := c + inc.mouseClicks, keystrokes := k + inc.keystrokes },
         1)) ∧
    (∀ (hs ok : Bool) (inc : ActivityCounters),
      (flush_activity { mouseClicks := 0, keystrokes := 0 } hs ok inc).2 = 0) := by
  constructor
  · intro c k inc h
    simp [flush_activity, h, Nat.add_comm]
  · intro hs ok inc
    simp [flush_activity]

/-- Witness for C8: a failed flush of (5, 7) with (2, 3) concurrent events ends
at (7, 10); a flush of (0, 0) makes no persistence call. -/
theorem activity_flush_loss_free_witness :
    flush_activity { mouseClicks := 5, keystrokes := 7 } true false
        { mouseClicks := 2, keystrokes := 3 } =
      ({ mouseClicks := 5 + 2, keystrokes := 7 + 3 }, 1) ∧
    (flush_activity { mouseClicks := 0, keystrokes := 0 } true true
        { mouseClicks := 2, keystrokes := 3 }).2 = 0 :=
  ⟨activity_flush_loss_free.1 5 7 { mouseClicks := 2, keystrokes := 3 }
    (by decide),
   activity_flush_loss_free.2 true true { mouseClicks := 2, keystrokes := 3 }⟩

/-- C9 counterexample: the flagReason actually written by
`emergency_check_out` is the fixed string "App quit or crashed without manual
checkout", not the literal "abnormal termination" the claim states. -/
theorem emergency_flag_reason_cex :
    ((emergency_check_out "sess1" true 1000 0 2000 true).1.map
      EmergencyPatch.flagReason) =
      some "App quit or crashed without manual checkout" ∧
    "App quit or crashed without manual checkout" ≠ "abnormal termination" := by
  exact ⟨rfl, by decide⟩

/-- C9 as amended: EmergencyCheckOut computes both duration fields with the
same formulas as CheckOut, fed from the in-memory total-break-seconds (no
re-derivation from the breaks array, no closing of an open break), writes the
fixed system report, `flagged = true` and the fixed flagReason "App quit or
crashed without manual checkout", sets status to completed, and never lets a
failure escape to the exit path (second conjunct, over every input including a
failing persistence call). -/
theorem emergency_checkout_fields (sid : String) (ci tbs nowMs : ℤ)
    (hsid : sid ≠ "") :
    EmergencyPost sid ci tbs nowMs ∧
    (∀ (sid2 : String) (ht : Bool) (ci2 tbs2 now2 : ℤ) (pOk : Bool),
      (emergency_check_out sid2 ht ci2 tbs2 now2 pOk).2 = false) := by
  constructor
  · have hguard : ¬(sid = "" ∨ true = false) := by simp [hsid]
    have hmin : pyRound ((tbs : ℚ) / 60) = pyRound (((tbs + 0 : ℤ) : ℚ) / 60) := by
      norm_num
    refine ⟨emergencyPatchOf ci tbs nowMs, ?_, rfl, rfl, rfl, rfl, rfl, rfl, ?_, ?_⟩
    · show (emergency_check_out sid true ci tbs nowMs true).1 = _
      unfold emergency_check_out
      rw [if_neg hguard]
      rfl
    · show max 0 ((if ci ≠ 0 then pyRound (((nowMs - ci : ℤ) : ℚ) / 60000) else 0) -
        pyRound ((tbs : ℚ) / 60)) = _
      rw [hmin]
      rfl
    · exact hmin
  · intro sid2 ht ci2 tbs2 now2 pOk
    unfold emergency_check_out
    split_ifs <;> rfl

/-- Witness for the amended C9 at a concrete session. -/
theorem emergency_checkout_fields_witness :
    EmergencyPost "sess1" 1000 121 500000 ∧
    (∀ (sid2 : String) (ht : Bool) (ci2 tbs2 now2 : ℤ) (pOk : Bool),
      (emergency_check_out sid2 ht ci2 tbs2 now2 pOk).2 = false) :=
  emergency_checkout_fields "sess1" 1000 121 500000 (by decide)

/-- C6 counterexample: with the handlers `main` actually registers, a StartBreak
request on the control surface answers `ok = false` even though its
precondition holds — the fixture state has an active session and is not on
break — and no `NoActiveSession`-style error tag is attached either. -/
theorem start_break_never_ok :
    (api_break main_on_break stActive).1.ok = false ∧
    (api_break main_on_break stActive).1.error = none ∧
    stActive.sessionId = some "sess1" ∧
    stActive.isOnBreak = false := by
  exact ⟨rfl, rfl, rfl, rfl⟩

/-- C6 as amended: `main` registers no handlers for `/api/break` and
`/api/resume` (`set_handlers` is called without `on_break`/`on_resume`, which
default to `None`), so both control-surface operations always answer
`{"ok": false}` with no error tag and leave the tracker state unchanged; the
session-store operations `start_break`/`resume_work` are never invoked from the
control surface. -/
theorem break_resume_unwired (st : TrackerState) :
    api_break main_on_break st = ({ ok := false, error := none }, st) ∧
    api_resume main_on_resume st = ({ ok := false, error := none }, st) :=
  ⟨rfl, rfl⟩

end CrazyDesk
